import Mathlib

/-!
Verification of the `name_generator.py` command-line utility.

The program is three functions plus an interactive entry point:
  * `extract_text`     — defensively unwraps a response object into a string;
  * `generate_creative_names` — clamps the count, builds the prompt, issues
    the remote call and turns any exception into an error string;
  * `main`             — collects inputs and guards the required fields;
plus a startup credential check at module load.

Python attribute access is modelled with `Option`: `none` stands for a
missing (or `None`-valued) attribute, `some s` for a present string value.
Python truthiness of a string attribute (`hasattr(o, "a") and o.a`) is the
predicate "present and non-empty".  The opaque SDK response object is
modelled by the fields the code actually probes; `str(response)` is
modelled by an `Option String` field (`none` when stringification itself
would fail).  The remote call is a parameter producing `Except String
Response`: `.error e` stands for a raised exception whose message is `e`.
-/

/-- Truthiness of an optional string attribute: present and non-empty. -/
def truthy : Option String → Bool
  | some s => s != ""
  | none => false

/-- Drop leading and trailing whitespace of a character list. -/
def stripChars (l : List Char) : List Char :=
  ((l.dropWhile Char.isWhitespace).reverse.dropWhile Char.isWhitespace).reverse

/-- Python's `str.strip()`: remove surrounding whitespace. -/
def pyStrip (s : String) : String := String.mk (stripChars s.data)

/-- One part of a candidate's content: an optional `text` field and an
optional secondary `content` field (modelled as its stringification). -/
structure RespPart where
  text : Option String
  content : Option String
deriving DecidableEq, Repr

/-- A candidate's content: an optional list of parts and an optional
direct `text` field. -/
structure Content where
  parts : Option (List RespPart)
  text : Option String
deriving DecidableEq, Repr

/-- One candidate of a response. -/
structure Candidate where
  content : Option Content
deriving DecidableEq, Repr

/-- The response object, restricted to the fields `extract_text` probes.
`strRepr` models `str(response)`; `none` means stringification fails. -/
structure Response where
  text : Option String
  candidates : Option (List Candidate)
  strRepr : Option String
deriving DecidableEq, Repr

/-- The fragment the parts loop appends for one part `p`:
`p.text` when present and non-empty, else `str(p.content)` when that is
present and non-empty, else nothing. -/
def partFragment (p : RespPart) : Option String :=
  if truthy p.text then p.text
  else if truthy p.content then p.content
  else none

/-- The structured-extraction `try` block of `extract_text` (step 2).
`none` means the block fell through without returning, either normally or
because an exception (such as indexing an empty candidate list) was
swallowed by the `except` clause. -/
def structuredExtract (r : Response) : Option String :=
  match r.candidates with
  | none => none
  | some [] => none
  | some (cand :: _) =>
    match cand.content with
    | none => none
    | some content =>
      let fromParts : Option String :=
        match content.parts with
        | none => none
        | some ps =>
          let out := ps.filterMap partFragment
          if out.isEmpty then none
          else some (pyStrip (String.intercalate "\n" out))
      match fromParts with
      | some s => some s
      | none => if truthy content.text then content.text.map pyStrip else none

/-- `extract_text`: direct `text` attribute first, then structured
extraction from `candidates[0].content`, then `str(response)`, then the
fixed sentinel. -/
def extract_text (r : Response) : String :=
  if truthy r.text then pyStrip (r.text.getD "")
  else
    match structuredExtract r with
    | some s => s
    | none =>
      match r.strRepr with
      | some s => s
      | none => "NO_TEXT_FOUND"

/-- `count = max(1, min(count, 20))` from `generate_creative_names`. -/
def clampCount (c : Int) : Int := max 1 (min c 20)

/-- `constraint_text = f"Constraints: {constraints}." if constraints else ""`:
the clause is built only when the argument is present and non-empty. -/
def constraintText : Option String → String
  | some c => if c != "" then "Constraints: " ++ c ++ "." else ""
  | none => ""

/-- The user prompt assembled by `generate_creative_names` (count already
clamped by the caller). -/
def buildPrompt (name_type theme : String) (count : Int)
    (constraints : Option String) : String :=
  "Generate exactly " ++ toString count ++ " creative " ++ name_type ++
    " for the theme: \"" ++ theme ++ "\".\n" ++
  constraintText constraints ++
  "\n\nStrict output format:\n" ++
  "1. NAME — Etymology/Meaning: ... | Why it works: ...\n" ++
  "2. NAME — ...\n" ++
  "Only the numbered list."

/-- `generate_creative_names`: clamp the count, build the prompt, issue
the remote call (`call`, taking the prompt), and either extract text from
the response or turn the raised exception's message into the error
string. -/
def generate_creative_names (name_type theme : String) (count : Int)
    (constraints : Option String)
    (call : String → Except String Response) : String :=
  let c := clampCount count
  let prompt := buildPrompt name_type theme c constraints
  match call prompt with
  | .ok response => extract_text response
  | .error e => "API Error: Failed to generate content: " ++ e

/-- Observable actions of the interactive entry point, in order. -/
inductive MainAction where
  | printed (s : String)
  | calledRequester (name_type theme : String) (count : Int)
      (constraints : Option String)
deriving DecidableEq, Repr

/-- The interactive entry point `main`, as the list of its observable
actions after the banner, given the three raw `input()` lines.  The code
strips only the constraints line (empty becoming `None`) and tests the
raw `name_type` and `theme` for truthiness. -/
def main_model (name_type theme constraints_input : String) :
    List MainAction :=
  let c := pyStrip constraints_input
  let constraints := if c != "" then some c else none
  if name_type == "" || theme == "" then
    [MainAction.printed "\nType and Theme are required. Exiting."]
  else
    [MainAction.printed "\nGenerating...\n",
     MainAction.calledRequester name_type theme 5 constraints]

/-- Whether a trace of the entry point contains a requester invocation. -/
def requesterCalled (acts : List MainAction) : Bool :=
  acts.any fun a =>
    match a with
    | MainAction.calledRequester _ _ _ _ => true
    | _ => false

/-- The startup error message raised when the credential is missing. -/
def missingKeyMsg : String :=
  "Missing GEMINI_API_KEY in .env file. Please create one."

/-- The module-load credential check: `API_KEY = os.getenv("GEMINI_API_KEY")`
followed by `if not API_KEY: raise EnvironmentError(...)`.  The argument is
the environment's value for the variable (after the optional `.env` load);
a missing variable is `none`, and the empty string is falsy. -/
def checkApiKey : Option String → Except String String
  | some k => if k == "" then .error missingKeyMsg else .ok k
  | none => .error missingKeyMsg

/-- The whole process run: the startup check aborts the program before any
interaction; otherwise `main` runs on the given input lines.  `.error`
models the uncaught startup exception terminating the process. -/
def run_program (env : Option String) (name_type theme constraints_input : String) :
    Except String (List MainAction) :=
  match checkApiKey env with
  | .error e => .error e
  | .ok _ => .ok (main_model name_type theme constraints_input)

/-- Substring containment, as infix of the character lists. -/
def containsSubstr (s sub : String) : Prop := sub.data <:+: s.data

/-- Claim C3: the count used by `generate_creative_names` is
`max(1, min(c, 20))`: values below 1 become 1, values above 20 become 20,
values already in `[1, 20]` are unchanged, and in particular
`clamp 0 = 1`, `clamp 37 = 20`, `clamp 5 = 5`. -/
theorem clampCount_spec (c : Int) :
    clampCount c = max 1 (min c 20) ∧
    (c < 1 → clampCount c = 1) ∧
    (20 < c → clampCount c = 20) ∧
    (1 ≤ c → c ≤ 20 → clampCount c = c) ∧
    clampCount 0 = 1 ∧ clampCount 37 = 20 ∧ clampCount 5 = 5 := by
  refine ⟨rfl, ?_, ?_, ?_, by decide, by decide, by decide⟩ <;>
    intros <;> simp only [clampCount, max_def, min_def] <;> split_ifs <;> omega

/-- Witness for claim C3 at the concrete inputs 0, 37 and 5. -/
theorem clampCount_spec_witness :
    clampCount 0 = 1 ∧ clampCount 37 = 20 ∧ clampCount 5 = 5 :=
  ⟨(clampCount_spec 0).2.1 (by decide),
   (clampCount_spec 37).2.2.1 (by decide),
   (clampCount_spec 5).2.2.2.1 (by decide) (by decide)⟩

/-- Claim C1: `extract_text` is a total function into strings (never
propagates an exception), and on an empty object with none of the
expected fields it returns the object's own stringification, or the
sentinel `"NO_TEXT_FOUND"` when even stringification fails. -/
theorem extract_text_never_raises :
    (∀ r : Response, ∃ s : String, extract_text r = s) ∧
    (∀ o : Option String,
      extract_text (Response.mk none none o) = o.getD "NO_TEXT_FOUND") := by
  constructor
  · intro r; exact ⟨extract_text r, rfl⟩
  · intro o; cases o <;> rfl

/-- Claim C5: whenever a response carries a present, non-empty direct
`text` field, `extract_text` returns that text with surrounding
whitespace stripped, whatever the `candidates` structure holds. -/
theorem extract_text_direct_priority (r : Response) (t : String)
    (ht : r.text = some t) (hne : t ≠ "") :
    extract_text r = pyStrip t := by
  unfold extract_text
  rw [ht]
  simp [truthy, hne]

/-- Witness for claim C5: direct text `"Foo"` alongside a nested
candidate carrying `"Bar"` still yields `"Foo"`. -/
theorem extract_text_direct_priority_witness :
    extract_text
      (Response.mk (some "Foo")
        (some [Candidate.mk (some (Content.mk
          (some [RespPart.mk (some "Bar") none]) none))])
        (some "stringified response")) = "Foo" := by
  have h := extract_text_direct_priority
    (Response.mk (some "Foo")
      (some [Candidate.mk (some (Content.mk
        (some [RespPart.mk (some "Bar") none]) none))])
      (some "stringified response")) "Foo" rfl (by decide)
  rw [h]
  decide

/-- Claim C4: whenever the remote call raises, `generate_creative_names`
returns `"API Error: Failed to generate content: "` followed by the
exception's message, for every exception message; at message
`"timeout"` the result is exactly
`"API Error: Failed to generate content: timeout"`. -/
theorem generate_error_path (nt th : String) (c : Int)
    (cons : Option String) (e : String) :
    generate_creative_names nt th c cons (fun _ => .error e) =
      "API Error: Failed to generate content: " ++ e ∧
    generate_creative_names nt th c cons (fun _ => .error "timeout") =
      "API Error: Failed to generate content: timeout" :=
  ⟨rfl, rfl⟩

/-- Claim C6: with no usable direct text, when `candidates[0].content`
carries a `parts` list and the collection over the parts (each part's
non-empty `text`, else the stringification of its non-empty secondary
`content` field, as `partFragment`) yields at least one fragment,
`extract_text` joins the fragments in order with newlines and returns
the stripped result. -/
theorem extract_text_parts_join (r : Response) (cand : Candidate)
    (rest : List Candidate) (content : Content) (ps : List RespPart)
    (hnt : truthy r.text = false) (hc : r.candidates = some (cand :: rest))
    (hcc : cand.content = some content) (hp : content.parts = some ps)
    (hout : ps.filterMap partFragment ≠ []) :
    extract_text r =
      pyStrip (String.intercalate "\n" (ps.filterMap partFragment)) := by
  simp only [extract_text, structuredExtract, hnt, hc]
  simp only [hcc, hp]
  simp [List.isEmpty_iff, hout]

/-- Witness for claim C6: parts `[{text: "A"}, {text: "B"}]` and no
direct text yield `"A\nB"`. -/
theorem extract_text_parts_join_witness :
    extract_text (Response.mk none
      (some [Candidate.mk (some (Content.mk
        (some [RespPart.mk (some "A") none, RespPart.mk (some "B") none])
        none))])
      none) = "A\nB" := by
  have h := extract_text_parts_join
    (Response.mk none
      (some [Candidate.mk (some (Content.mk
        (some [RespPart.mk (some "A") none, RespPart.mk (some "B") none])
        none))])
      none)
    (Candidate.mk (some (Content.mk
      (some [RespPart.mk (some "A") none, RespPart.mk (some "B") none])
      none)))
    []
    (Content.mk
      (some [RespPart.mk (some "A") none, RespPart.mk (some "B") none])
      none)
    [RespPart.mk (some "A") none, RespPart.mk (some "B") none]
    rfl rfl rfl rfl (by decide)
  rw [h]
  decide

/-- Claim C9: with no usable direct text, when `candidates[0].content`
carries a `parts` list over which the collection yields no fragment at
all, extraction does not stop: it next uses the content's own non-empty
direct `text` field, stripped. -/
theorem extract_text_content_text_fallback (r : Response) (cand : Candidate)
    (rest : List Candidate) (content : Content) (ps : List RespPart)
    (t : String)
    (hnt : truthy r.text = false) (hc : r.candidates = some (cand :: rest))
    (hcc : cand.content = some content) (hp : content.parts = some ps)
    (hout : ps.filterMap partFragment = [])
    (hct : content.text = some t) (htne : t ≠ "") :
    extract_text r = pyStrip t := by
  simp only [extract_text, structuredExtract, hnt, hc]
  simp only [hcc, hp, hct]
  simp [hout, truthy, htne]

/-- Witness for claim C9: one part with neither field, the content's own
text `"Direct"` — extraction returns `"Direct"`. -/
theorem extract_text_content_text_fallback_witness :
    extract_text (Response.mk none
      (some [Candidate.mk (some (Content.mk
        (some [RespPart.mk none none]) (some "Direct")))])
      (some "stringified")) = "Direct" := by
  have h := extract_text_content_text_fallback
    (Response.mk none
      (some [Candidate.mk (some (Content.mk
        (some [RespPart.mk none none]) (some "Direct")))])
      (some "stringified"))
    (Candidate.mk (some (Content.mk
      (some [RespPart.mk none none]) (some "Direct"))))
    []
    (Content.mk (some [RespPart.mk none none]) (some "Direct"))
    [RespPart.mk none none]
    "Direct"
    rfl rfl rfl rfl (by decide) rfl (by decide)
  rw [h]
  decide

/-- A string is an infix of any concatenation that places it in the
middle. -/
theorem containsSubstr_middle (a b c : String) :
    containsSubstr (a ++ b ++ c) b := by
  unfold containsSubstr
  exact ⟨a.data, c.data, by simp [String.data_append]⟩

set_option maxRecDepth 16384 in
/-- Claim C7: with `constraints` absent (`None`) or empty, the
constraints clause of the prompt is the empty string and a concrete
prompt built without constraints contains no `"Constraints:"` fragment;
with `constraints = "must start with Z"` every built prompt contains the
literal substring `"Constraints: must start with Z."`. -/
theorem prompt_constraints_clause (nt th : String) (c : Int) :
    constraintText none = "" ∧
    constraintText (some "") = "" ∧
    ¬ containsSubstr (buildPrompt "company names" "space opera" 5 none)
        "Constraints:" ∧
    containsSubstr (buildPrompt nt th c (some "must start with Z"))
      "Constraints: must start with Z." := by
  refine ⟨rfl, rfl, ?_, ?_⟩
  · unfold containsSubstr buildPrompt constraintText
    decide
  · have hct : constraintText (some "must start with Z") =
        "Constraints: must start with Z." := rfl
    have e : buildPrompt nt th c (some "must start with Z") =
        ("Generate exactly " ++ toString c ++ " creative " ++ nt ++
          " for the theme: \"" ++ th ++ "\".\n") ++
        "Constraints: must start with Z." ++
        ("\n\nStrict output format:\n" ++
         "1. NAME — Etymology/Meaning: ... | Why it works: ...\n" ++
         "2. NAME — ...\n" ++
         "Only the numbered list.") := by
      unfold buildPrompt
      rw [hct]
      simp [String.append_assoc]
    rw [e]
    exact containsSubstr_middle _ _ _

/-- Claim C2 fails as stated on the code: with a non-empty `name_type`
and a whitespace-only `theme` (empty after trimming), the entry point
does not print the required-fields message and does invoke the
requester, because the guard tests the raw inputs, not trimmed ones. -/
theorem main_guard_counterexample :
    pyStrip " " = "" ∧
    requesterCalled (main_model "company names" " " "") = true ∧
    MainAction.printed "\nType and Theme are required. Exiting." ∉
      main_model "company names" " " "" := by
  refine ⟨by decide, by decide, by decide⟩

/-- Claim C2 (amended): the required-fields guard tests the raw,
untrimmed inputs — whenever `name_type` or `theme` is exactly the empty
string, the entry point prints the required-fields message and returns
without invoking the requester. -/
theorem main_required_guard (nt th ci : String) (h : nt = "" ∨ th = "") :
    main_model nt th ci =
      [MainAction.printed "\nType and Theme are required. Exiting."] ∧
    requesterCalled (main_model nt th ci) = false := by
  have hb : (nt == "" || th == "") = true := by
    rcases h with h | h <;> simp [h]
  have hm : main_model nt th ci =
      [MainAction.printed "\nType and Theme are required. Exiting."] := by
    unfold main_model
    simp [hb]
  exact ⟨hm, by rw [hm]; rfl⟩

/-- Witness for the amended claim C2: empty `theme` with non-empty
`name_type` prints the message and skips the requester. -/
theorem main_required_guard_witness :
    main_model "company names" "" "" =
      [MainAction.printed "\nType and Theme are required. Exiting."] ∧
    requesterCalled (main_model "company names" "" "") = false :=
  main_required_guard "company names" "" "" (Or.inr rfl)

set_option maxRecDepth 16384 in
/-- Claim C10: the constraints line is stripped of surrounding
whitespace; when it is empty or whitespace-only the requester is invoked
with `constraints = none`, the constraints clause built from `none` is
empty, and a concrete prompt built that way carries no `"Constraints:"`
fragment. -/
theorem main_blank_constraints (nt th ci : String)
    (hnt : nt ≠ "") (hth : th ≠ "") (hci : pyStrip ci = "") :
    main_model nt th ci =
      [MainAction.printed "\nGenerating...\n",
       MainAction.calledRequester nt th 5 none] ∧
    constraintText none = "" ∧
    ¬ containsSubstr (buildPrompt "pet names" "dragons" 5 none)
        "Constraints:" := by
  have hb : (nt == "" || th == "") = false := by simp [hnt, hth]
  refine ⟨?_, rfl, ?_⟩
  · unfold main_model
    simp [hb, hci]
  · unfold containsSubstr buildPrompt constraintText
    decide

/-- Witness for claim C10 at a whitespace-only constraints line. -/
theorem main_blank_constraints_witness :
    main_model "company names" "AI startups" "   " =
      [MainAction.printed "\nGenerating...\n",
       MainAction.calledRequester "company names" "AI startups" 5 none] ∧
    constraintText none = "" ∧
    ¬ containsSubstr (buildPrompt "pet names" "dragons" 5 none)
        "Constraints:" :=
  main_blank_constraints "company names" "AI startups" "   "
    (by decide) (by decide) (by decide)

/-- Claim C8: when the credential is missing from the environment (or
present but empty, which Python treats the same way), the process run
aborts at startup with the descriptive message and never produces an
interaction trace — no input is read and no requester call happens. -/
theorem startup_missing_key (nt th ci : String) :
    run_program none nt th ci = Except.error missingKeyMsg ∧
    run_program (some "") nt th ci = Except.error missingKeyMsg ∧
    (∀ acts : List MainAction, run_program none nt th ci ≠ Except.ok acts) := by
  refine ⟨rfl, rfl, ?_⟩
  intro acts h
  exact Except.noConfusion h
